import Mathlib

/-!
Verification of the `GeckoAsyncSpaMan` connection-lifecycle manager
(`src/geckolib/async_spa_manager.py`) against its specification.

The manager's mutable fields become a Lean structure; each async method
becomes a pure function from the manager state (plus explicit parameters
standing for the behaviour of external collaborators: the Locator's
discovery result and the Session's handshake events/exception) to a
result record carrying the new state, the ordered list of events
forwarded to the abstract `handle_event` hook, the sessions that were
disconnected, and the Python-level outcome (normal return, raised
exception, or assertion failure).
-/

namespace Geckolib

/-- Lifecycle states of the manager (`GeckoSpaState`).  The enum itself
lives in `spa_state.py`; the members are those used by
`async_spa_manager.py` and listed in the specification. -/
inductive GeckoSpaState where
  | IDLE
  | LOCATING_SPAS
  | CONNECTING
  | SPA_READY
  | CONNECTED
  | ERROR_SPA_NOT_FOUND
  | ERROR_PING_MISSED
  | ERROR_RF_FAULT
  | ERROR_NEEDS_ATTENTION
  deriving DecidableEq, Repr

/-- Protocol/lifecycle events (`GeckoSpaEvent`).  The enum lives in
`spa_events.py`; the members are those dispatched or matched by
`async_spa_manager.py` (including `RUNNING_SPA_DISCONNECTED`, whose
handling is commented out in the source and which therefore causes no
state change). -/
inductive GeckoSpaEvent where
  | SPA_MAN_ENTER
  | SPA_MAN_EXIT
  | LOCATING_STARTED
  | LOCATING_FINISHED
  | SPA_NOT_FOUND
  | CONNECTION_STARTED
  | CONNECTION_SPA_COMPLETE
  | CONNECTION_FINISHED
  | RUNNING_PING_NO_RESPONSE
  | RUNNING_PING_RECEIVED
  | RUNNING_SPA_DISCONNECTED
  | ERROR_RF_ERROR
  | CONNECTION_PROTOCOL_RETRY_COUNT_EXCEEDED
  | ERROR_PROTOCOL_RETRY_COUNT_EXCEEDED
  | ERROR_TOO_MANY_RF_ERRORS
  deriving DecidableEq, Repr

/-- A discovered device descriptor (`GeckoAsyncSpaDescriptor`): address,
identifier and name of one device, as returned by discovery. -/
structure GeckoAsyncSpaDescriptor where
  addr : String
  ident : String
  name : String
  deriving DecidableEq, Repr

/-- The per-device session object (`GeckoAsyncSpa`), as constructed by
`async_connect_to_spa`: it is bound to the manager's client identity and
the chosen descriptor.  Its wire behaviour is external. -/
structure GeckoAsyncSpa where
  client_id : String
  descriptor : GeckoAsyncSpaDescriptor
  deriving DecidableEq, Repr

/-- The control-surface facade (`GeckoAsyncFacade`), constructed from
`self._spa` (which in Python may in principle be `None` at that point)
and the manager. -/
structure GeckoAsyncFacade where
  spa : Option GeckoAsyncSpa
  deriving DecidableEq, Repr

/-- A Python exception value propagating out of an external call. -/
structure PyErr where
  msg : String
  deriving DecidableEq, Repr

/-- The keyword payload (`**kwargs`) attached to a dispatched event, as
actually passed by the source: nothing, `spa_descriptors=...`,
`facade=...`, `spa_address=.../spa_identifier=...`, or `exc_info=...`. -/
inductive KwArgs where
  | noArgs
  | spaDescriptors (descs : Option (List GeckoAsyncSpaDescriptor))
  | facadeArg (facade : Option GeckoAsyncFacade)
  | notFound (spa_address : Option String) (spa_identifier : Option String)
  | excInfo
  deriving DecidableEq, Repr

/-- The mutable fields of `GeckoAsyncSpaMan` set in `__init__`. -/
structure GeckoAsyncSpaMan where
  _client_id : String
  _spa_address : Option String
  _spa_identifier : Option String
  _spa_name : Option String
  _spa_descriptors : Option (List GeckoAsyncSpaDescriptor)
  _facade : Option GeckoAsyncFacade
  _spa : Option GeckoAsyncSpa
  _spa_state : GeckoSpaState
  _status_line : String
  deriving DecidableEq, Repr

/-- Modelled from the spec: the client identity is "opaque identity bytes
derived from a caller-supplied UUID string" via a format constant kept in
`const.py`, which is outside the provided source. -/
def mk_client_id (client_uuid : String) : String :=
  "client-" ++ client_uuid

/-- `GeckoAsyncSpaMan.__init__`: stores the client identity, normalizes
empty-string hints to absent, and starts with no descriptors, facade or
session in state `IDLE`.  (Python leaves `_status_line` unset until the
first event; we model it as the empty string.) -/
def init (client_uuid : String) (spa_address spa_identifier spa_name : Option String) :
    GeckoAsyncSpaMan :=
  { _client_id := mk_client_id client_uuid
    _spa_address := if spa_address = some "" then none else spa_address
    _spa_identifier := if spa_identifier = some "" then none else spa_identifier
    _spa_name := if spa_name = some "" then none else spa_name
    _spa_descriptors := none
    _facade := none
    _spa := none
    _spa_state := GeckoSpaState.IDLE
    _status_line := "" }

/-- `async_reset`: clears descriptors and facade, disconnects and clears
the session if present, forces state to `IDLE`.  The second component
lists the sessions on which `disconnect()` was awaited. -/
def async_reset (m : GeckoAsyncSpaMan) : GeckoAsyncSpaMan × List GeckoAsyncSpa :=
  let m1 := { m with _spa_descriptors := none, _facade := none }
  match m1._spa with
  | some spa =>
      ({ m1 with _spa := none, _spa_state := GeckoSpaState.IDLE }, [spa])
  | none =>
      ({ m1 with _spa_state := GeckoSpaState.IDLE }, [])

/-- Modelled from the spec: the status line is "a formatted combination of
state and event name" (`f"State: {state}, last event {event}"`); the
string renderings of the two enums live outside the provided source. -/
def stateName : GeckoSpaState → String
  | .IDLE => "IDLE"
  | .LOCATING_SPAS => "LOCATING_SPAS"
  | .CONNECTING => "CONNECTING"
  | .SPA_READY => "SPA_READY"
  | .CONNECTED => "CONNECTED"
  | .ERROR_SPA_NOT_FOUND => "ERROR_SPA_NOT_FOUND"
  | .ERROR_PING_MISSED => "ERROR_PING_MISSED"
  | .ERROR_RF_FAULT => "ERROR_RF_FAULT"
  | .ERROR_NEEDS_ATTENTION => "ERROR_NEEDS_ATTENTION"

/-- Modelled from the spec: event name rendering for the status line. -/
def eventName : GeckoSpaEvent → String
  | .SPA_MAN_ENTER => "SPA_MAN_ENTER"
  | .SPA_MAN_EXIT => "SPA_MAN_EXIT"
  | .LOCATING_STARTED => "LOCATING_STARTED"
  | .LOCATING_FINISHED => "LOCATING_FINISHED"
  | .SPA_NOT_FOUND => "SPA_NOT_FOUND"
  | .CONNECTION_STARTED => "CONNECTION_STARTED"
  | .CONNECTION_SPA_COMPLETE => "CONNECTION_SPA_COMPLETE"
  | .CONNECTION_FINISHED => "CONNECTION_FINISHED"
  | .RUNNING_PING_NO_RESPONSE => "RUNNING_PING_NO_RESPONSE"
  | .RUNNING_PING_RECEIVED => "RUNNING_PING_RECEIVED"
  | .RUNNING_SPA_DISCONNECTED => "RUNNING_SPA_DISCONNECTED"
  | .ERROR_RF_ERROR => "ERROR_RF_ERROR"
  | .CONNECTION_PROTOCOL_RETRY_COUNT_EXCEEDED => "CONNECTION_PROTOCOL_RETRY_COUNT_EXCEEDED"
  | .ERROR_PROTOCOL_RETRY_COUNT_EXCEEDED => "ERROR_PROTOCOL_RETRY_COUNT_EXCEEDED"
  | .ERROR_TOO_MANY_RF_ERRORS => "ERROR_TOO_MANY_RF_ERRORS"

/-- The pre-processing part of `_handle_event`: the event-to-state
transition table, including the `ping-received` full reset from the three
designated error states.  Returns the updated manager and the sessions
disconnected (by a triggered reset). -/
def _handle_event_pre (m : GeckoAsyncSpaMan) (event : GeckoSpaEvent) :
    GeckoAsyncSpaMan × List GeckoAsyncSpa :=
  match event with
  | .LOCATING_STARTED => ({ m with _spa_state := GeckoSpaState.LOCATING_SPAS }, [])
  | .LOCATING_FINISHED => ({ m with _spa_state := GeckoSpaState.IDLE }, [])
  | .SPA_NOT_FOUND => ({ m with _spa_state := GeckoSpaState.ERROR_SPA_NOT_FOUND }, [])
  | .CONNECTION_STARTED => ({ m with _spa_state := GeckoSpaState.CONNECTING }, [])
  | .CONNECTION_SPA_COMPLETE => ({ m with _spa_state := GeckoSpaState.SPA_READY }, [])
  | .CONNECTION_FINISHED =>
      if m._facade.isSome then ({ m with _spa_state := GeckoSpaState.CONNECTED }, [])
      else (m, [])
  | .RUNNING_PING_NO_RESPONSE => ({ m with _spa_state := GeckoSpaState.ERROR_PING_MISSED }, [])
  | .RUNNING_PING_RECEIVED =>
      if m._spa_state = GeckoSpaState.ERROR_PING_MISSED ∨
         m._spa_state = GeckoSpaState.ERROR_RF_FAULT ∨
         m._spa_state = GeckoSpaState.ERROR_NEEDS_ATTENTION then
        async_reset m
      else (m, [])
  | .ERROR_RF_ERROR => ({ m with _spa_state := GeckoSpaState.ERROR_RF_FAULT }, [])
  | .CONNECTION_PROTOCOL_RETRY_COUNT_EXCEEDED =>
      ({ m with _spa_state := GeckoSpaState.ERROR_NEEDS_ATTENTION }, [])
  | .ERROR_PROTOCOL_RETRY_COUNT_EXCEEDED =>
      ({ m with _spa_state := GeckoSpaState.ERROR_NEEDS_ATTENTION }, [])
  | .ERROR_TOO_MANY_RF_ERRORS =>
      ({ m with _spa_state := GeckoSpaState.ERROR_NEEDS_ATTENTION }, [])
  | _ => (m, [])

/-- Result of dispatching one or more events through `_handle_event`. -/
structure DispatchResult where
  st : GeckoAsyncSpaMan
  disconnected : List GeckoAsyncSpa
  forwarded : List (GeckoSpaEvent × KwArgs)
  deriving DecidableEq, Repr

/-- `_handle_event`: runs the transition table, rebuilds the status line,
then unconditionally forwards the event with its original keyword payload
to the abstract `handle_event` (recorded in `forwarded`). -/
def _handle_event (m : GeckoAsyncSpaMan) (event : GeckoSpaEvent) (kwargs : KwArgs) :
    DispatchResult :=
  let (m1, disc) := _handle_event_pre m event
  let m2 := { m1 with
    _status_line := "State: " ++ stateName m1._spa_state ++ ", last event " ++ eventName event }
  { st := m2, disconnected := disc, forwarded := [(event, kwargs)] }

/-- Dispatch of a sequence of events, threading the manager state and
concatenating the disconnect and forwarded streams in order. -/
def _handle_events (m : GeckoAsyncSpaMan) :
    List (GeckoSpaEvent × KwArgs) → DispatchResult
  | [] => { st := m, disconnected := [], forwarded := [] }
  | (e, kw) :: rest =>
      let r := _handle_event m e kw
      let r2 := _handle_events r.st rest
      { st := r2.st
        disconnected := r.disconnected ++ r2.disconnected
        forwarded := r.forwarded ++ r2.forwarded }

/-- Outcome of a public async method: normal return, a propagated
exception, or an `assert` failure (a programming error halting loudly). -/
inductive PyOutcome (α : Type) where
  | ok (a : α)
  | raised (e : PyErr)
  | assertFailed
  deriving DecidableEq, Repr

/-- Result of running a public operation: the manager state afterwards,
the events forwarded to the abstract handler in order, the sessions
disconnected along the way, and the Python-level outcome. -/
structure OpResult (α : Type) where
  st : GeckoAsyncSpaMan
  events : List (GeckoSpaEvent × KwArgs)
  disconnects : List GeckoAsyncSpa
  outcome : PyOutcome α

/-- `async_locate_spas`: emits `LOCATING_STARTED`, constructs a Locator
with the supplied overrides and awaits `discover()`.  The Locator is
external: `discover_events` are the events it dispatches through the
callback while discovering, and `discover_result` is either its `spas`
list or the exception `discover()` raises.  On success the list is
persisted into `_spa_descriptors`.  The `finally` block always emits
`LOCATING_FINISHED` carrying the current `_spa_descriptors`, after which
any exception propagates; otherwise the method returns
`self._spa_descriptors`. -/
def async_locate_spas (m : GeckoAsyncSpaMan)
    (spa_address spa_identifier : Option String)
    (discover_events : List (GeckoSpaEvent × KwArgs))
    (discover_result : Except PyErr (List GeckoAsyncSpaDescriptor)) :
    OpResult (Option (List GeckoAsyncSpaDescriptor)) :=
  let _hints := (spa_address, spa_identifier)
  let r1 := _handle_event m GeckoSpaEvent.LOCATING_STARTED KwArgs.noArgs
  let rd := _handle_events r1.st discover_events
  match discover_result with
  | .ok spas =>
      let m2 := { rd.st with _spa_descriptors := some spas }
      let r3 := _handle_event m2 GeckoSpaEvent.LOCATING_FINISHED
        (KwArgs.spaDescriptors m2._spa_descriptors)
      { st := r3.st
        events := r1.forwarded ++ rd.forwarded ++ r3.forwarded
        disconnects := r1.disconnected ++ rd.disconnected ++ r3.disconnected
        outcome := .ok r3.st._spa_descriptors }
  | .error e =>
      let r3 := _handle_event rd.st GeckoSpaEvent.LOCATING_FINISHED
        (KwArgs.spaDescriptors rd.st._spa_descriptors)
      { st := r3.st
        events := r1.forwarded ++ rd.forwarded ++ r3.forwarded
        disconnects := r1.disconnected ++ rd.disconnected ++ r3.disconnected
        outcome := .raised e }

/-- The manager state reached inside `async_connect_to_spa` at the moment
`self._spa.connect()` returns: after `CONNECTION_STARTED` was dispatched,
the new session stored, and the session's handshake events processed. -/
def connect_mid (m : GeckoAsyncSpaMan) (spa_descriptor : GeckoAsyncSpaDescriptor)
    (connect_events : List (GeckoSpaEvent × KwArgs)) : DispatchResult :=
  let r1 := _handle_event m GeckoSpaEvent.CONNECTION_STARTED KwArgs.noArgs
  let m2 := { r1.st with
    _spa := some { client_id := m._client_id, descriptor := spa_descriptor } }
  let rc := _handle_events m2 connect_events
  { st := rc.st
    disconnected := r1.disconnected ++ rc.disconnected
    forwarded := r1.forwarded ++ rc.forwarded }

/-- `async_connect_to_spa`: asserts no facade exists, emits
`CONNECTION_STARTED`, constructs a session bound to the client identity
and descriptor, awaits its handshake (`connect_events` are the events the
session dispatches; `connect_err` is the exception `connect()` raises, if
any), and — only when the handshake returned normally and the state is
then `SPA_READY` — constructs the facade.  The `finally` block always
emits `CONNECTION_FINISHED` carrying the current facade; the method then
returns `self._facade` or re-raises. -/
def async_connect_to_spa (m : GeckoAsyncSpaMan)
    (spa_descriptor : GeckoAsyncSpaDescriptor)
    (connect_events : List (GeckoSpaEvent × KwArgs))
    (connect_err : Option PyErr) :
    OpResult (Option GeckoAsyncFacade) :=
  if m._facade.isSome then
    { st := m, events := [], disconnects := [], outcome := .assertFailed }
  else
    let mid := connect_mid m spa_descriptor connect_events
    match connect_err with
    | none =>
        let m4 :=
          if mid.st._spa_state = GeckoSpaState.SPA_READY then
            { mid.st with _facade := some { spa := mid.st._spa } }
          else mid.st
        let r5 := _handle_event m4 GeckoSpaEvent.CONNECTION_FINISHED
          (KwArgs.facadeArg m4._facade)
        { st := r5.st
          events := mid.forwarded ++ r5.forwarded
          disconnects := mid.disconnected ++ r5.disconnected
          outcome := .ok r5.st._facade }
    | some e =>
        let r5 := _handle_event mid.st GeckoSpaEvent.CONNECTION_FINISHED
          (KwArgs.facadeArg mid.st._facade)
        { st := r5.st
          events := mid.forwarded ++ r5.forwarded
          disconnects := mid.disconnected ++ r5.disconnected
          outcome := .raised e }

/-- `async_connect`: runs discovery filtered by the supplied identifier
and address, asserts the result is not `None`, and either emits
`SPA_NOT_FOUND` and returns `None` when the list is empty, or connects to
the first descriptor. -/
def async_connect (m : GeckoAsyncSpaMan)
    (spa_identifier : String) (spa_address : Option String)
    (discover_events : List (GeckoSpaEvent × KwArgs))
    (discover_result : Except PyErr (List GeckoAsyncSpaDescriptor))
    (connect_events : List (GeckoSpaEvent × KwArgs))
    (connect_err : Option PyErr) :
    OpResult (Option GeckoAsyncFacade) :=
  let rl := async_locate_spas m spa_address (some spa_identifier)
    discover_events discover_result
  match rl.outcome with
  | .raised e =>
      { st := rl.st, events := rl.events, disconnects := rl.disconnects
        outcome := .raised e }
  | .assertFailed =>
      { st := rl.st, events := rl.events, disconnects := rl.disconnects
        outcome := .assertFailed }
  | .ok spa_descriptors =>
      match spa_descriptors with
      | none =>
          { st := rl.st, events := rl.events, disconnects := rl.disconnects
            outcome := .assertFailed }
      | some [] =>
          let r2 := _handle_event rl.st GeckoSpaEvent.SPA_NOT_FOUND
            (KwArgs.notFound spa_address (some spa_identifier))
          { st := r2.st
            events := rl.events ++ r2.forwarded
            disconnects := rl.disconnects ++ r2.disconnected
            outcome := .ok none }
      | some (d :: _) =>
          let rc := async_connect_to_spa rl.st d connect_events connect_err
          { st := rc.st
            events := rl.events ++ rc.events
            disconnects := rl.disconnects ++ rc.disconnects
            outcome := rc.outcome }

/-- `async_set_spa_info`: stores the three hints exactly as supplied,
then calls `async_reset`. -/
def async_set_spa_info (m : GeckoAsyncSpaMan)
    (spa_address spa_identifier spa_name : Option String) :
    GeckoAsyncSpaMan × List GeckoAsyncSpa :=
  async_reset { m with
    _spa_address := spa_address
    _spa_identifier := spa_identifier
    _spa_name := spa_name }

/-- The operation one iteration of `_sequence_pump` decides to perform. -/
inductive PumpAction where
  | connect (spa_identifier : String) (spa_address : Option String)
  | locate (spa_address : Option String)
  | nothing
  deriving DecidableEq, Repr

/-- One iteration of the `_sequence_pump` loop body: only when the state
is `IDLE`, attempt connect-by-identifier when an identifier hint exists
and no facade does, else attempt discovery when no discovery has
completed, else do nothing. -/
def _sequence_pump (m : GeckoAsyncSpaMan) : PumpAction :=
  if m._spa_state = GeckoSpaState.IDLE then
    match m._spa_identifier with
    | some ident =>
        if m._facade = none then PumpAction.connect ident m._spa_address
        else PumpAction.nothing
    | none =>
        if m._spa_descriptors = none then PumpAction.locate m._spa_address
        else PumpAction.nothing
  else PumpAction.nothing

/-! ### Helper lemmas -/

/-- A single dispatch forwards exactly the event with its payload. -/
theorem _handle_event_forwarded (m : GeckoAsyncSpaMan) (e : GeckoSpaEvent)
    (kw : KwArgs) : (_handle_event m e kw).forwarded = [(e, kw)] := rfl

/-- The dispatcher forwards each dispatched event with its payload,
in order: helper used across the operation proofs. -/
theorem _handle_events_forwarded (m : GeckoAsyncSpaMan)
    (evs : List (GeckoSpaEvent × KwArgs)) :
    (_handle_events m evs).forwarded = evs := by
  induction evs generalizing m with
  | nil => rfl
  | cons e rest ih =>
      obtain ⟨ev, kw⟩ := e
      simp [_handle_events, _handle_event, ih]

/-- A single dispatch never creates a facade: if none exists before,
none exists after. -/
theorem _handle_event_facade_none (m : GeckoAsyncSpaMan)
    (e : GeckoSpaEvent) (kw : KwArgs) (h : m._facade = none) :
    (_handle_event m e kw).st._facade = none := by
  cases e <;>
    simp [_handle_event, _handle_event_pre, async_reset, h] <;>
    split <;>
    (try split) <;>
    simp [h]

/-- A single dispatch with no facade present never produces state
`CONNECTED` from a non-`CONNECTED` state. -/
theorem _handle_event_not_connected (m : GeckoAsyncSpaMan)
    (e : GeckoSpaEvent) (kw : KwArgs) (h : m._facade = none)
    (hs : m._spa_state ≠ GeckoSpaState.CONNECTED) :
    (_handle_event m e kw).st._spa_state ≠ GeckoSpaState.CONNECTED := by
  cases e <;>
    simp [_handle_event, _handle_event_pre, async_reset, h, hs] <;>
    split <;>
    (try split) <;>
    simp [hs]

/-- Multi-event version of the two preservation lemmas. -/
theorem _handle_events_facade_inv (m : GeckoAsyncSpaMan)
    (evs : List (GeckoSpaEvent × KwArgs)) (h : m._facade = none) :
    (_handle_events m evs).st._facade = none ∧
      (m._spa_state ≠ GeckoSpaState.CONNECTED →
        (_handle_events m evs).st._spa_state ≠ GeckoSpaState.CONNECTED) := by
  induction evs generalizing m with
  | nil => exact ⟨h, fun hs => hs⟩
  | cons e rest ih =>
      obtain ⟨ev, kw⟩ := e
      have h1 := _handle_event_facade_none m ev kw h
      have h2 := _handle_event_not_connected m ev kw h
      have := ih (_handle_event m ev kw).st h1
      exact ⟨by simpa [_handle_events] using this.1,
        fun hs => by simpa [_handle_events] using this.2 (h2 hs)⟩

/-! ### Claim theorems -/

/-- C1: every event dispatched through `_handle_event` is forwarded to the
abstract `handle_event` with exactly its payload, and over any sequence of
dispatched events the forwarded stream equals the dispatched sequence in
order — the dispatcher never filters, reorders or skips, even when the
event causes no state change. -/
theorem dispatcher_never_filters (m : GeckoAsyncSpaMan) (e : GeckoSpaEvent)
    (kw : KwArgs) (evs : List (GeckoSpaEvent × KwArgs)) :
    (_handle_event m e kw).forwarded = [(e, kw)] ∧
      (_handle_events m evs).forwarded = evs :=
  ⟨rfl, _handle_events_forwarded m evs⟩

/-- C2: dispatching `RUNNING_PING_RECEIVED` from any of the three
designated error states performs a full reset (state `IDLE`, descriptors,
facade and session all `None`); from any other state it changes nothing
in those fields, in particular the state. -/
theorem ping_received_resets_iff_error_state (m : GeckoAsyncSpaMan) (kw : KwArgs) :
    ((_handle_event m GeckoSpaEvent.RUNNING_PING_RECEIVED kw).st._spa_state =
      if m._spa_state = GeckoSpaState.ERROR_PING_MISSED ∨
         m._spa_state = GeckoSpaState.ERROR_RF_FAULT ∨
         m._spa_state = GeckoSpaState.ERROR_NEEDS_ATTENTION
       then GeckoSpaState.IDLE else m._spa_state) ∧
    ((_handle_event m GeckoSpaEvent.RUNNING_PING_RECEIVED kw).st._spa_descriptors =
      if m._spa_state = GeckoSpaState.ERROR_PING_MISSED ∨
         m._spa_state = GeckoSpaState.ERROR_RF_FAULT ∨
         m._spa_state = GeckoSpaState.ERROR_NEEDS_ATTENTION
       then none else m._spa_descriptors) ∧
    ((_handle_event m GeckoSpaEvent.RUNNING_PING_RECEIVED kw).st._facade =
      if m._spa_state = GeckoSpaState.ERROR_PING_MISSED ∨
         m._spa_state = GeckoSpaState.ERROR_RF_FAULT ∨
         m._spa_state = GeckoSpaState.ERROR_NEEDS_ATTENTION
       then none else m._facade) ∧
    ((_handle_event m GeckoSpaEvent.RUNNING_PING_RECEIVED kw).st._spa =
      if m._spa_state = GeckoSpaState.ERROR_PING_MISSED ∨
         m._spa_state = GeckoSpaState.ERROR_RF_FAULT ∨
         m._spa_state = GeckoSpaState.ERROR_NEEDS_ATTENTION
       then none else m._spa) := by
  by_cases h : m._spa_state = GeckoSpaState.ERROR_PING_MISSED ∨
      m._spa_state = GeckoSpaState.ERROR_RF_FAULT ∨
      m._spa_state = GeckoSpaState.ERROR_NEEDS_ATTENTION
  · cases hs : m._spa <;>
      simp [_handle_event, _handle_event_pre, async_reset, h, hs]
  · simp [_handle_event, _handle_event_pre, h]

/-- C8: `async_reset` always clears descriptors, facade and session,
forces state `IDLE`, and disconnects exactly the session that existed
(none, when no session existed — a no-op disconnect). -/
theorem async_reset_clears_everything (m : GeckoAsyncSpaMan) :
    (async_reset m).1._spa_descriptors = none ∧
    (async_reset m).1._facade = none ∧
    (async_reset m).1._spa = none ∧
    (async_reset m).1._spa_state = GeckoSpaState.IDLE ∧
    (async_reset m).2 = m._spa.toList := by
  cases h : m._spa <;> simp [async_reset, h]

/-- C10: `async_set_spa_info` itself performs a full reset after storing
the new hints: from every prior manager state, afterwards the state is
`IDLE` and descriptors, facade and session are all `None`. -/
theorem async_set_spa_info_full_reset (m : GeckoAsyncSpaMan)
    (spa_address spa_identifier spa_name : Option String) :
    (async_set_spa_info m spa_address spa_identifier spa_name).1._spa_state =
        GeckoSpaState.IDLE ∧
    (async_set_spa_info m spa_address spa_identifier spa_name).1._spa_descriptors = none ∧
    (async_set_spa_info m spa_address spa_identifier spa_name).1._facade = none ∧
    (async_set_spa_info m spa_address spa_identifier spa_name).1._spa = none := by
  cases h : m._spa <;> simp [async_set_spa_info, async_reset, h]

/-- C6 counterexample: reconfiguring with empty-string hints leaves all
three stored hint fields equal to `some ""` — `async_set_spa_info` does
not normalize empty strings, only `__init__` does. -/
theorem set_spa_info_stores_empty_string :
    (async_set_spa_info (init "u" none none none)
        (some "") (some "") (some "")).1._spa_address = some "" ∧
    (async_set_spa_info (init "u" none none none)
        (some "") (some "") (some "")).1._spa_identifier = some "" ∧
    (async_set_spa_info (init "u" none none none)
        (some "") (some "") (some "")).1._spa_name = some "" :=
  ⟨rfl, rfl, rfl⟩

/-- C6 (amended): empty-string hints are normalized to absent at
construction — no hint field of a freshly constructed manager equals the
empty string — while `async_set_spa_info` stores the supplied hint values
verbatim, without empty-string normalization. -/
theorem hint_normalization_construction_only (uuid : String)
    (a i n a2 i2 n2 : Option String) (m : GeckoAsyncSpaMan) :
    ((init uuid a i n)._spa_address ≠ some "" ∧
     (init uuid a i n)._spa_identifier ≠ some "" ∧
     (init uuid a i n)._spa_name ≠ some "") ∧
    ((async_set_spa_info m a2 i2 n2).1._spa_address = a2 ∧
     (async_set_spa_info m a2 i2 n2).1._spa_identifier = i2 ∧
     (async_set_spa_info m a2 i2 n2).1._spa_name = n2) := by
  constructor
  · refine ⟨?_, ?_, ?_⟩ <;> · simp only [init]; split <;> simp_all
  · cases h : m._spa <;> simp [async_set_spa_info, async_reset, h]

/-- C7: the sequence pump acts only in state `IDLE`; there, it attempts
connect-by-identifier (with the configured identifier and address hints)
when an identifier hint is configured and no facade exists, attempts
discovery (with the configured address hint) when no identifier hint is
configured and descriptors is `None`, and otherwise does nothing; its
decision is a function only of the state, the hints, the facade and the
descriptors. -/
theorem sequence_pump_decision (m m2 : GeckoAsyncSpaMan) (ident : String) :
    (m._spa_state ≠ GeckoSpaState.IDLE → _sequence_pump m = PumpAction.nothing) ∧
    (m._spa_state = GeckoSpaState.IDLE → m._spa_identifier = some ident →
      m._facade = none → _sequence_pump m = PumpAction.connect ident m._spa_address) ∧
    (m._spa_state = GeckoSpaState.IDLE → m._spa_identifier = some ident →
      m._facade ≠ none → _sequence_pump m = PumpAction.nothing) ∧
    (m._spa_state = GeckoSpaState.IDLE → m._spa_identifier = none →
      m._spa_descriptors = none → _sequence_pump m = PumpAction.locate m._spa_address) ∧
    (m._spa_state = GeckoSpaState.IDLE → m._spa_identifier = none →
      m._spa_descriptors ≠ none → _sequence_pump m = PumpAction.nothing) ∧
    (m._spa_state = m2._spa_state → m._spa_identifier = m2._spa_identifier →
      m._spa_address = m2._spa_address → m._facade = m2._facade →
      m._spa_descriptors = m2._spa_descriptors →
      _sequence_pump m = _sequence_pump m2) := by
  refine ⟨?_, ?_, ?_, ?_, ?_, ?_⟩
  · intro h; simp [_sequence_pump, h]
  · intro h1 h2 h3; simp [_sequence_pump, h1, h2, h3]
  · intro h1 h2 h3; simp [_sequence_pump, h1, h2, h3]
  · intro h1 h2 h3; simp [_sequence_pump, h1, h2, h3]
  · intro h1 h2 h3; simp [_sequence_pump, h1, h2, h3]
  · intro h1 h2 h3 h4 h5; simp only [_sequence_pump, h1, h2, h3, h4, h5]

/-- Witness for C7: a freshly constructed manager with only an identifier
hint is in state `IDLE` with no facade, so the pump decides to attempt
connect-by-identifier with that hint. -/
theorem sequence_pump_decision_witness :
    _sequence_pump (init "u" none (some "ABC") none) =
      PumpAction.connect "ABC" none := by
  have h := sequence_pump_decision (init "u" none (some "ABC") none)
    (init "u" none (some "ABC") none) "ABC"
  exact h.2.1 rfl rfl rfl

/-- C9: `async_connect_to_spa` requires that no facade exists; when one
does, it halts immediately with an assertion failure — no events, no
state change, no recoverable error state — and when none does, the
assertion branch is unreachable (the outcome is never an assertion
failure). -/
theorem connect_to_spa_precondition (m : GeckoAsyncSpaMan)
    (spa_descriptor : GeckoAsyncSpaDescriptor)
    (connect_events : List (GeckoSpaEvent × KwArgs)) (connect_err : Option PyErr) :
    (m._facade.isSome →
      async_connect_to_spa m spa_descriptor connect_events connect_err =
        { st := m, events := [], disconnects := [],
          outcome := PyOutcome.assertFailed }) ∧
    (m._facade = none →
      (async_connect_to_spa m spa_descriptor connect_events connect_err).outcome ≠
        PyOutcome.assertFailed) := by
  constructor
  · intro h; simp [async_connect_to_spa, h]
  · intro h
    cases connect_err <;> simp [async_connect_to_spa, h]

/-- Witness for C9: on a fresh manager (no facade) the connect
operation's outcome is not an assertion failure. -/
theorem connect_to_spa_precondition_witness :
    (init "u" none none none)._facade = none ∧
    (async_connect_to_spa (init "u" none none none)
        { addr := "a", ident := "i", name := "n" } [] none).outcome ≠
      PyOutcome.assertFailed :=
  ⟨rfl, (connect_to_spa_precondition (init "u" none none none)
      { addr := "a", ident := "i", name := "n" } [] none).2 rfl⟩

/-- Helper: the event trace of `async_locate_spas` is always
`LOCATING_STARTED`, then the Locator's own events, then
`LOCATING_FINISHED` carrying the descriptors stored at that moment. -/
theorem async_locate_spas_events (m : GeckoAsyncSpaMan)
    (spa_address spa_identifier : Option String)
    (discover_events : List (GeckoSpaEvent × KwArgs))
    (discover_result : Except PyErr (List GeckoAsyncSpaDescriptor)) :
    (async_locate_spas m spa_address spa_identifier discover_events
        discover_result).events =
      (GeckoSpaEvent.LOCATING_STARTED, KwArgs.noArgs) ::
        (discover_events ++
          [(GeckoSpaEvent.LOCATING_FINISHED,
            KwArgs.spaDescriptors
              (async_locate_spas m spa_address spa_identifier discover_events
                  discover_result).st._spa_descriptors)]) := by
  cases discover_result <;>
    simp [async_locate_spas, _handle_event, _handle_event_pre,
      _handle_events_forwarded]

/-- Helper: `async_locate_spas` always leaves the manager in state
`IDLE` (the last event it processes is `LOCATING_FINISHED`). -/
theorem async_locate_spas_state (m : GeckoAsyncSpaMan)
    (spa_address spa_identifier : Option String)
    (discover_events : List (GeckoSpaEvent × KwArgs))
    (discover_result : Except PyErr (List GeckoAsyncSpaDescriptor)) :
    (async_locate_spas m spa_address spa_identifier discover_events
        discover_result).st._spa_state = GeckoSpaState.IDLE := by
  cases discover_result <;>
    simp [async_locate_spas, _handle_event, _handle_event_pre]

/-- Helper: outcome and stored descriptors of `async_locate_spas` when
the Locator succeeds. -/
theorem async_locate_spas_ok (m : GeckoAsyncSpaMan)
    (spa_address spa_identifier : Option String)
    (discover_events : List (GeckoSpaEvent × KwArgs))
    (spas : List GeckoAsyncSpaDescriptor) :
    (async_locate_spas m spa_address spa_identifier discover_events
        (Except.ok spas)).outcome = PyOutcome.ok (some spas) ∧
    (async_locate_spas m spa_address spa_identifier discover_events
        (Except.ok spas)).st._spa_descriptors = some spas := by
  constructor <;>
    simp [async_locate_spas, _handle_event, _handle_event_pre]

/-- Helper: outcome of `async_locate_spas` when `discover()` raises. -/
theorem async_locate_spas_err (m : GeckoAsyncSpaMan)
    (spa_address spa_identifier : Option String)
    (discover_events : List (GeckoSpaEvent × KwArgs)) (e : PyErr) :
    (async_locate_spas m spa_address spa_identifier discover_events
        (Except.error e)).outcome = PyOutcome.raised e := by
  simp [async_locate_spas]

/-- C3: `async_locate_spas` emits `locating-started` before the Locator
runs, always emits `locating-finished` carrying the descriptor list held
at that moment — also when `discover()` raises, in which case the
exception still propagates afterwards — and leaves the manager in state
`IDLE` regardless of whether any descriptors were found. -/
theorem locate_spas_guaranteed_finish (m : GeckoAsyncSpaMan)
    (spa_address spa_identifier : Option String)
    (discover_events : List (GeckoSpaEvent × KwArgs))
    (discover_result : Except PyErr (List GeckoAsyncSpaDescriptor)) :
    (async_locate_spas m spa_address spa_identifier discover_events
        discover_result).events =
      (GeckoSpaEvent.LOCATING_STARTED, KwArgs.noArgs) ::
        (discover_events ++
          [(GeckoSpaEvent.LOCATING_FINISHED,
            KwArgs.spaDescriptors
              (async_locate_spas m spa_address spa_identifier discover_events
                  discover_result).st._spa_descriptors)]) ∧
    (async_locate_spas m spa_address spa_identifier discover_events
        discover_result).st._spa_state = GeckoSpaState.IDLE ∧
    (match discover_result with
      | .ok spas =>
          (async_locate_spas m spa_address spa_identifier discover_events
              discover_result).outcome = PyOutcome.ok (some spas) ∧
          (async_locate_spas m spa_address spa_identifier discover_events
              discover_result).st._spa_descriptors = some spas
      | .error e =>
          (async_locate_spas m spa_address spa_identifier discover_events
              discover_result).outcome = PyOutcome.raised e) := by
  refine ⟨async_locate_spas_events m spa_address spa_identifier discover_events
      discover_result,
    async_locate_spas_state m spa_address spa_identifier discover_events
      discover_result, ?_⟩
  cases discover_result with
  | ok spas =>
      exact async_locate_spas_ok m spa_address spa_identifier discover_events spas
  | error e =>
      exact async_locate_spas_err m spa_address spa_identifier discover_events e

/-- Helper: starting with no facade, the state reached when the
handshake returns still has no facade and is not `CONNECTED` (the
dispatcher only ever sets `CONNECTED` when a facade exists). -/
theorem connect_mid_inv (m : GeckoAsyncSpaMan) (d : GeckoAsyncSpaDescriptor)
    (cevts : List (GeckoSpaEvent × KwArgs)) (h : m._facade = none) :
    (connect_mid m d cevts).st._facade = none ∧
      (connect_mid m d cevts).st._spa_state ≠ GeckoSpaState.CONNECTED := by
  have h1 : ({ (_handle_event m GeckoSpaEvent.CONNECTION_STARTED KwArgs.noArgs).st with
      _spa := some { client_id := m._client_id, descriptor := d } } :
        GeckoAsyncSpaMan)._facade = none := by
    simp [_handle_event, _handle_event_pre, h]
  have h2 : ({ (_handle_event m GeckoSpaEvent.CONNECTION_STARTED KwArgs.noArgs).st with
      _spa := some { client_id := m._client_id, descriptor := d } } :
        GeckoAsyncSpaMan)._spa_state ≠ GeckoSpaState.CONNECTED := by
    simp [_handle_event, _handle_event_pre]
  have h3 := _handle_events_facade_inv _ cevts h1
  exact ⟨by simpa [connect_mid] using h3.1, by simpa [connect_mid] using h3.2 h2⟩

/-- C4: the `CONNECTION_FINISHED` dispatch sets state `CONNECTED` iff a
facade exists at that moment (otherwise the state is unchanged); under
the operation's precondition (no facade), `async_connect_to_spa` emits a
final `CONNECTION_FINISHED` whose facade payload is non-null only when
the state at handshake return was `SPA_READY` (exactly then, when the
handshake returned normally), and the final state is `CONNECTED` iff
that payload is non-null. -/
theorem connection_finished_facade_spa_ready (m : GeckoAsyncSpaMan)
    (spa_descriptor : GeckoAsyncSpaDescriptor)
    (connect_events : List (GeckoSpaEvent × KwArgs)) (connect_err : Option PyErr)
    (h : m._facade = none) :
    (∀ (m2 : GeckoAsyncSpaMan) (kw : KwArgs),
      (_handle_event m2 GeckoSpaEvent.CONNECTION_FINISHED kw).st._spa_state =
        if m2._facade.isSome then GeckoSpaState.CONNECTED else m2._spa_state) ∧
    ∃ f : Option GeckoAsyncFacade,
      (async_connect_to_spa m spa_descriptor connect_events connect_err).events =
        (connect_mid m spa_descriptor connect_events).forwarded ++
          [(GeckoSpaEvent.CONNECTION_FINISHED, KwArgs.facadeArg f)] ∧
      (f ≠ none →
        (connect_mid m spa_descriptor connect_events).st._spa_state =
          GeckoSpaState.SPA_READY) ∧
      (connect_err = none →
        (f ≠ none ↔
          (connect_mid m spa_descriptor connect_events).st._spa_state =
            GeckoSpaState.SPA_READY)) ∧
      ((async_connect_to_spa m spa_descriptor connect_events connect_err).st._spa_state =
          GeckoSpaState.CONNECTED ↔ f ≠ none) := by
  have hfs : m._facade.isSome = false := by simp [h]
  obtain ⟨hmf, hmc⟩ := connect_mid_inv m spa_descriptor connect_events h
  refine ⟨?_, ?_⟩
  · intro m2 kw
    by_cases h2 : m2._facade.isSome <;>
      simp [_handle_event, _handle_event_pre, h2]
  · cases connect_err with
    | some e =>
        refine ⟨(connect_mid m spa_descriptor connect_events).st._facade, ?_, ?_, ?_, ?_⟩
        · simp [async_connect_to_spa, hfs, _handle_event_forwarded]
        · intro hne; exact absurd hmf hne
        · intro hc; exact absurd hc (by simp)
        · rw [hmf]
          simp only [async_connect_to_spa, hfs, Bool.false_eq_true, if_false]
          constructor
          · intro hc
            exact absurd (by simpa [_handle_event, _handle_event_pre, hmf] using hc) hmc
          · intro hne; exact absurd rfl hne
    | none =>
        by_cases hr : (connect_mid m spa_descriptor connect_events).st._spa_state =
            GeckoSpaState.SPA_READY
        · refine ⟨some { spa := (connect_mid m spa_descriptor connect_events).st._spa },
            ?_, ?_, ?_, ?_⟩
          · simp [async_connect_to_spa, hfs, hr, _handle_event_forwarded]
          · intro _; exact hr
          · intro _; simp [hr]
          · simp [async_connect_to_spa, hfs, hr, _handle_event, _handle_event_pre]
        · refine ⟨(connect_mid m spa_descriptor connect_events).st._facade, ?_, ?_, ?_, ?_⟩
          · simp [async_connect_to_spa, hfs, hr, hmf, _handle_event_forwarded]
          · intro hne; exact absurd hmf hne
          · intro _; rw [hmf]; simp [hr]
          · rw [hmf]
            simp only [async_connect_to_spa, hfs, Bool.false_eq_true, if_false, hr]
            constructor
            · intro hc
              exact absurd (by simpa [_handle_event, _handle_event_pre, hmf, hr] using hc) hmc
            · intro hne; exact absurd rfl hne

/-- Witness for C4: from a fresh manager, a handshake that dispatches
`CONNECTION_SPA_COMPLETE` (reaching `SPA_READY`) and returns normally
yields final state `CONNECTED`. -/
theorem connection_finished_facade_spa_ready_witness :
    (async_connect_to_spa (init "u" none none none)
        { addr := "a", ident := "i", name := "n" }
        [(GeckoSpaEvent.CONNECTION_SPA_COMPLETE, KwArgs.noArgs)] none).st._spa_state =
      GeckoSpaState.CONNECTED := by
  have h := connection_finished_facade_spa_ready (init "u" none none none)
    { addr := "a", ident := "i", name := "n" }
    [(GeckoSpaEvent.CONNECTION_SPA_COMPLETE, KwArgs.noArgs)] none rfl
  obtain ⟨-, f, -, -, hiff, hconn⟩ := h
  refine hconn.mpr ((hiff rfl).mpr ?_)
  rfl

/-- Helper: the handshake phase forwards `CONNECTION_STARTED` followed by
the session's own events. -/
theorem connect_mid_forwarded (m : GeckoAsyncSpaMan) (d : GeckoAsyncSpaDescriptor)
    (cevts : List (GeckoSpaEvent × KwArgs)) :
    (connect_mid m d cevts).forwarded =
      (GeckoSpaEvent.CONNECTION_STARTED, KwArgs.noArgs) :: cevts := by
  simp [connect_mid, _handle_event_forwarded, _handle_events_forwarded]

/-- Helper: `async_locate_spas` never dispatches `SPA_NOT_FOUND` itself;
it can only appear in its trace if the Locator dispatched it. -/
theorem spa_not_found_not_in_locate (m : GeckoAsyncSpaMan)
    (spa_address spa_identifier : Option String)
    (devs : List (GeckoSpaEvent × KwArgs))
    (res : Except PyErr (List GeckoAsyncSpaDescriptor))
    (hdev : ∀ kw, (GeckoSpaEvent.SPA_NOT_FOUND, kw) ∉ devs) (kw : KwArgs) :
    (GeckoSpaEvent.SPA_NOT_FOUND, kw) ∉
      (async_locate_spas m spa_address spa_identifier devs res).events := by
  intro hmem
  rw [async_locate_spas_events] at hmem
  rcases List.mem_cons.mp hmem with h | h
  · simp at h
  · rcases List.mem_append.mp h with h2 | h2
    · exact hdev kw h2
    · simp at h2

/-- Helper: `async_connect_to_spa` never dispatches `SPA_NOT_FOUND`
itself; it can only appear in its trace if the session dispatched it. -/
theorem spa_not_found_not_in_connect (m : GeckoAsyncSpaMan)
    (d : GeckoAsyncSpaDescriptor) (cevts : List (GeckoSpaEvent × KwArgs))
    (cerr : Option PyErr)
    (hcev : ∀ kw, (GeckoSpaEvent.SPA_NOT_FOUND, kw) ∉ cevts) (kw : KwArgs) :
    (GeckoSpaEvent.SPA_NOT_FOUND, kw) ∉
      (async_connect_to_spa m d cevts cerr).events := by
  intro hmem
  by_cases hf : m._facade.isSome
  · simp [async_connect_to_spa, hf] at hmem
  · rw [Bool.not_eq_true] at hf
    cases cerr <;>
      · simp only [async_connect_to_spa, hf, Bool.false_eq_true, if_false,
          connect_mid_forwarded, _handle_event_forwarded] at hmem
        rcases List.mem_append.mp hmem with h | h
        · rcases List.mem_cons.mp h with h2 | h2
          · simp at h2
          · exact hcev kw h2
        · simp at h

/-- Helper: unfolding of `async_connect` when discovery raises. -/
theorem async_connect_eq_err (m : GeckoAsyncSpaMan) (ident : String)
    (addr : Option String) (devs : List (GeckoSpaEvent × KwArgs)) (e : PyErr)
    (cevts : List (GeckoSpaEvent × KwArgs)) (cerr : Option PyErr) :
    async_connect m ident addr devs (Except.error e) cevts cerr =
      { st := (async_locate_spas m addr (some ident) devs (Except.error e)).st
        events := (async_locate_spas m addr (some ident) devs (Except.error e)).events
        disconnects :=
          (async_locate_spas m addr (some ident) devs (Except.error e)).disconnects
        outcome := PyOutcome.raised e } := by
  have ho := async_locate_spas_err m addr (some ident) devs e
  simp only [async_connect, ho]

/-- Helper: unfolding of `async_connect` when discovery succeeds with an
empty list. -/
theorem async_connect_eq_nil (m : GeckoAsyncSpaMan) (ident : String)
    (addr : Option String) (devs : List (GeckoSpaEvent × KwArgs))
    (cevts : List (GeckoSpaEvent × KwArgs)) (cerr : Option PyErr) :
    async_connect m ident addr devs (Except.ok []) cevts cerr =
      { st := (_handle_event (async_locate_spas m addr (some ident) devs
            (Except.ok [])).st GeckoSpaEvent.SPA_NOT_FOUND
            (KwArgs.notFound addr (some ident))).st
        events := (async_locate_spas m addr (some ident) devs (Except.ok [])).events ++
          [(GeckoSpaEvent.SPA_NOT_FOUND, KwArgs.notFound addr (some ident))]
        disconnects :=
          (async_locate_spas m addr (some ident) devs (Except.ok [])).disconnects ++
            (_handle_event (async_locate_spas m addr (some ident) devs
              (Except.ok [])).st GeckoSpaEvent.SPA_NOT_FOUND
              (KwArgs.notFound addr (some ident))).disconnected
        outcome := PyOutcome.ok none } := by
  have ho := (async_locate_spas_ok m addr (some ident) devs []).1
  simp only [async_connect, ho, _handle_event_forwarded]

/-- Helper: unfolding of `async_connect` when discovery succeeds with a
non-empty list — it connects to the first descriptor. -/
theorem async_connect_eq_cons (m : GeckoAsyncSpaMan) (ident : String)
    (addr : Option String) (devs : List (GeckoSpaEvent × KwArgs))
    (d : GeckoAsyncSpaDescriptor) (rest : List GeckoAsyncSpaDescriptor)
    (cevts : List (GeckoSpaEvent × KwArgs)) (cerr : Option PyErr) :
    async_connect m ident addr devs (Except.ok (d :: rest)) cevts cerr =
      { st := (async_connect_to_spa (async_locate_spas m addr (some ident) devs
            (Except.ok (d :: rest))).st d cevts cerr).st
        events :=
          (async_locate_spas m addr (some ident) devs (Except.ok (d :: rest))).events ++
            (async_connect_to_spa (async_locate_spas m addr (some ident) devs
              (Except.ok (d :: rest))).st d cevts cerr).events
        disconnects :=
          (async_locate_spas m addr (some ident) devs
              (Except.ok (d :: rest))).disconnects ++
            (async_connect_to_spa (async_locate_spas m addr (some ident) devs
              (Except.ok (d :: rest))).st d cevts cerr).disconnects
        outcome := (async_connect_to_spa (async_locate_spas m addr (some ident) devs
            (Except.ok (d :: rest))).st d cevts cerr).outcome } := by
  have ho := (async_locate_spas_ok m addr (some ident) devs (d :: rest)).1
  simp only [async_connect, ho]

/-- C5: `async_connect` runs discovery with the supplied hints; it emits
`SPA_NOT_FOUND` exactly when discovery returns an empty descriptor list
(assuming neither the Locator nor the session dispatches that event
itself), in which case it returns `None` having dispatched nothing
beyond the discovery trace and that single event; otherwise it connects
to the first descriptor in discovery order. -/
theorem connect_by_identifier_spec (m : GeckoAsyncSpaMan) (ident : String)
    (addr : Option String) (devs : List (GeckoSpaEvent × KwArgs))
    (res : Except PyErr (List GeckoAsyncSpaDescriptor))
    (cevts : List (GeckoSpaEvent × KwArgs)) (cerr : Option PyErr)
    (hdev : ∀ kw, (GeckoSpaEvent.SPA_NOT_FOUND, kw) ∉ devs)
    (hcev : ∀ kw, (GeckoSpaEvent.SPA_NOT_FOUND, kw) ∉ cevts) :
    ((∃ kw, (GeckoSpaEvent.SPA_NOT_FOUND, kw) ∈
        (async_connect m ident addr devs res cevts cerr).events) ↔
      res = Except.ok []) ∧
    (res = Except.ok [] →
      (async_connect m ident addr devs res cevts cerr).outcome = PyOutcome.ok none ∧
      (async_connect m ident addr devs res cevts cerr).events =
        (async_locate_spas m addr (some ident) devs res).events ++
          [(GeckoSpaEvent.SPA_NOT_FOUND, KwArgs.notFound addr (some ident))]) ∧
    (∀ d rest, res = Except.ok (d :: rest) →
      (async_connect m ident addr devs res cevts cerr).events =
        (async_locate_spas m addr (some ident) devs res).events ++
          (async_connect_to_spa (async_locate_spas m addr (some ident) devs res).st
            d cevts cerr).events ∧
      (async_connect m ident addr devs res cevts cerr).outcome =
        (async_connect_to_spa (async_locate_spas m addr (some ident) devs res).st
          d cevts cerr).outcome ∧
      (async_connect m ident addr devs res cevts cerr).st =
        (async_connect_to_spa (async_locate_spas m addr (some ident) devs res).st
          d cevts cerr).st) := by
  cases res with
  | error e =>
      have heq := async_connect_eq_err m ident addr devs e cevts cerr
      refine ⟨?_, by simp, by intro d rest h; simp at h⟩
      constructor
      · rintro ⟨kw, hmem⟩
        rw [heq] at hmem
        exact absurd hmem
          (spa_not_found_not_in_locate m addr (some ident) devs (Except.error e) hdev kw)
      · intro h; simp at h
  | ok spas =>
      cases spas with
      | nil =>
          have heq := async_connect_eq_nil m ident addr devs cevts cerr
          refine ⟨⟨fun _ => rfl, fun _ => ?_⟩,
            fun _ => ⟨by rw [heq], by rw [heq]⟩,
            by intro d rest h; simp at h⟩
          exact ⟨KwArgs.notFound addr (some ident), by rw [heq]; simp⟩
      | cons d rest =>
          have heq := async_connect_eq_cons m ident addr devs d rest cevts cerr
          refine ⟨?_, by simp, ?_⟩
          · constructor
            · rintro ⟨kw, hmem⟩
              rw [heq] at hmem
              rcases List.mem_append.mp hmem with h | h
              · exact absurd h (spa_not_found_not_in_locate m addr (some ident) devs
                  (Except.ok (d :: rest)) hdev kw)
              · exact absurd h (spa_not_found_not_in_connect _ d cevts cerr hcev kw)
            · intro h; simp at h
          · intro d2 rest2 h
            obtain ⟨rfl, rfl⟩ : d = d2 ∧ rest = rest2 := by
              have := Except.ok.inj h
              exact ⟨(List.cons.inj this).1, (List.cons.inj this).2⟩
            rw [heq]
            exact ⟨rfl, rfl, rfl⟩

/-- Witness for C5: with no Locator/session side events, a discovery
returning the empty list makes `async_connect` return `None`, and its
final trace ends with the `SPA_NOT_FOUND` event. -/
theorem connect_by_identifier_spec_witness :
    (async_connect (init "u" none none none) "ABC" none []
        (Except.ok []) [] none).outcome = PyOutcome.ok none ∧
    (async_connect (init "u" none none none) "ABC" none []
        (Except.ok []) [] none).events =
      (async_locate_spas (init "u" none none none) none (some "ABC") []
          (Except.ok [])).events ++
        [(GeckoSpaEvent.SPA_NOT_FOUND, KwArgs.notFound none (some "ABC"))] := by
  have h := connect_by_identifier_spec (init "u" none none none) "ABC" none []
    (Except.ok []) [] none (by simp) (by simp)
  exact h.2.1 rfl

end Geckolib
